import Mathlib

/-!
Verification of the conversation state machine of a Telegram macros bot
(`src/main.py`).  The Python handlers are shallowly embedded as pure Lean
functions: the Supabase/Telegram side effects are reified into an `Effects`
record (state writes, outbound messages, RPC delegate calls, and whether an
uncaught exception propagated), and the remote delegate outcomes are supplied
by an `Oracle` record.  Machine floats are idealised as exact rationals (`ℚ`);
the numeric literals involved are all exactly representable.
-/

namespace MacrosBot

/-- ASCII whitespace, modelling the whitespace class Python's `str.strip` and
`re`'s void class use on the bot's inputs. -/
def isSpace (c : Char) : Bool :=
  c = ' ' || c = '\t' || c = '\n' || c = '\r' || c = '\x0b' || c = '\x0c'

/-- Python `str.strip()`: drop leading and trailing whitespace. -/
def pyStrip (l : List Char) : List Char :=
  ((l.dropWhile isSpace).reverse.dropWhile isSpace).reverse

/-- Collapse every whitespace run to a single space (the substitution
performed by `re.sub` in `normalize_text`).  The boolean records whether the
previous character was whitespace. -/
def collapseWS : Bool → List Char → List Char
  | _, [] => []
  | prevSpace, c :: cs =>
    if isSpace c then
      if prevSpace then collapseWS true cs else ' ' :: collapseWS true cs
    else c :: collapseWS false cs

/-- `normalize_text` from `main.py`: strip, then collapse internal whitespace
runs to single spaces. -/
def normalize_text (s : String) : String :=
  ⟨collapseWS false (pyStrip s.data)⟩

/-- Python `str.isdigit()` restricted to ASCII digits (the only digits the
dialogue deals in): non-empty and all characters are digits. -/
def pyIsDigit (s : String) : Bool :=
  !s.data.isEmpty && s.data.all Char.isDigit

/-- Value of a run of ASCII digit characters (Python `int` on a digit string). -/
def digitsToNat (l : List Char) : Nat :=
  l.foldl (fun n c => 10 * n + (c.toNat - 48)) 0

/-- The exact rational value of a decimal literal with integer-part digits
`ip` and fractional digits `frac`. -/
def decimalValue (ip frac : List Char) : Rat :=
  mkRat (digitsToNat ip * 10 ^ frac.length + digitsToNat frac) (10 ^ frac.length)

/-- Python `float()` on an unsigned plain decimal literal: `D+`, `D+.D*`, or
`.D+`.  (Exponent, `inf`/`nan` and underscore forms are outside the fragment
the dialogue expects and are not modelled.) -/
def parseUnsignedDec (l : List Char) : Option Rat :=
  let ip := l.takeWhile Char.isDigit
  let rest := l.dropWhile Char.isDigit
  match rest with
  | [] => if ip.isEmpty then none else some (decimalValue ip [])
  | '.' :: frac =>
      if frac.all Char.isDigit && !(ip.isEmpty && frac.isEmpty) then
        some (decimalValue ip frac)
      else none
  | _ => none

/-- Python `float()` on a plain decimal literal with optional sign. -/
def pyFloat (s : String) : Option Rat :=
  match s.data with
  | '-' :: r => (parseUnsignedDec r).map (fun q => mkRat (-q.num) q.den)
  | '+' :: r => parseUnsignedDec r
  | l => parseUnsignedDec l

/-- Whether the first list is a leading segment of the second. -/
def listStarts : List Char → List Char → Bool
  | [], _ => true
  | _ :: _, [] => false
  | p :: ps, c :: cs => p = c && listStarts ps cs

/-- Python `str.upper()` (the tokens involved are ASCII, where Lean's
`Char.toUpper` agrees with Python). -/
def pyUpper (s : String) : String :=
  ⟨s.data.map Char.toUpper⟩

/-- `a.startswith(b)`. -/
def strStarts (s pat : String) : Bool :=
  listStarts pat.data s.data

/-- `t.replace(",", ".")` from the height/weight steps. -/
def commaToDot (s : String) : String :=
  ⟨s.data.map (fun c => if c = ',' then '.' else c)⟩

/-- `t.replace(" ", "")` from the activity step. -/
def stripSpaces (s : String) : String :=
  ⟨s.data.filter (fun c => c ≠ ' ')⟩

/-- The tail of `FOOD_RE` after the lazily matched name:
`\s+(?P<grams>\d+(?:[.,]\d+)?)\s*g?$` (case-insensitive `g`), returning the
grams value with the decimal comma already treated as a point (the handler
does `.replace(",", ".")` before `float`).  Greedy/optional groups are
resolved deterministically: the character classes involved (whitespace,
digit, separator, `g`) are disjoint, so regex backtracking can never produce
a different match. -/
def numberTail (l : List Char) : Option Rat :=
  match l with
  | [] => none
  | c :: cs =>
    if isSpace c then
      let afterWs := cs.dropWhile isSpace
      let d1 := afterWs.takeWhile Char.isDigit
      let r1 := afterWs.dropWhile Char.isDigit
      if d1.isEmpty then none
      else
        let fracSplit : List Char × List Char :=
          match r1 with
          | p :: q =>
            if (p = '.' || p = ',') && (q.headD ' ').isDigit then
              (q.takeWhile Char.isDigit, q.dropWhile Char.isDigit)
            else ([], r1)
          | [] => ([], r1)
        let d2 := fracSplit.1
        let r3 := fracSplit.2.dropWhile isSpace
        let unitOk : Bool :=
          match r3 with
          | [] => true
          | [g] => g = 'g' || g = 'G'
          | _ => false
        if unitOk then some (decimalValue d1 d2) else none
    else none

/-- The lazy `^(?P<name>.+?)` of `FOOD_RE`: try the shortest non-empty name
first, extending one character at a time; the name may not contain a newline
(`.` does not match `\n`). -/
def foodScan : List Char → List Char → Option (List Char × Rat)
  | nameRev, rest =>
    match (if nameRev.isEmpty then none
           else (numberTail rest).map (fun g => (nameRev.reverse, g))) with
    | some result => some result
    | none =>
      match rest with
      | [] => none
      | c :: cs => if c = '\n' then none else foodScan (c :: nameRev) cs

/-- `parse_food_grams` from `main.py`: match `FOOD_RE` against the stripped
text and return the whitespace-normalised name with the grams value. -/
def parse_food_grams (text : String) : Option (String × Rat) :=
  match foodScan [] (pyStrip text.data) with
  | none => none
  | some (nm, g) => some (normalize_text ⟨nm⟩, g)

/-- The `data` JSON column of `user_state`, restricted to the keys the
program ever writes: the six onboarding fields plus the post-onboarding meal
selection.  A `none` field models an absent dictionary key. -/
structure Acc where
  sex : Option String := none
  age : Option Nat := none
  height_cm : Option Rat := none
  weight_kg : Option Rat := none
  activity_factor : Option Rat := none
  goal : Option String := none
  current_meal : Option String := none
deriving DecidableEq, Repr

/-- The empty accumulator (the Python dict `\x7b\x7d`). -/
def emptyAcc : Acc := {}

/-- One `user_state` row: step identifier (NULL once onboarding is complete)
and the accumulator. -/
structure Session where
  step : Option String
  data : Acc
deriving DecidableEq, Repr

/-- A `user_profile` row as read back after `complete_onboarding`. -/
structure Profile where
  kcal_target : Rat
  protein_g : Rat
  carbs_g : Rat
  fats_g : Rat
deriving DecidableEq, Repr

/-- A Supabase RPC issued by the handlers, with its full payload. -/
inductive RpcCall where
  | activateWithCode (userId : Nat) (code : String)
  | completeOnboarding (userId : Nat) (sex : String) (age : Nat)
      (heightCm weightKg activityFactor : Rat) (goal : String)
  | logFood (userId : Nat) (mealType foodName : String) (grams : Rat) (day : String)
deriving DecidableEq, Repr

/-- The observable effects of one handler invocation: `set_state` upserts (in
order), `tg_send` messages (in order), RPC delegate calls issued, and whether
an uncaught Python exception propagated out of the handler. -/
structure Effects where
  writes : List (Option String × Acc)
  msgs : List String
  rpcs : List RpcCall
  crashed : Bool
deriving DecidableEq, Repr

/-- Outcomes of the remote collaborators for one webhook invocation. -/
structure Oracle where
  /-- whether the `activate_with_code` RPC succeeds -/
  activateOk : Bool
  /-- whether the `complete_onboarding` RPC succeeds -/
  completeOk : Bool
  /-- the `user_profile` row read back inside `finalize_onboarding` -/
  finalizeRow : Option Profile
  /-- the `user_profile` row as seen by `has_profile` / `handle_summary` -/
  profileRow : Option Profile
  /-- today's `daily_log` row (kcal, protein, carbs, fats) for the summary -/
  dailyRow : Option (Rat × Rat × Rat × Rat)
  /-- whether the `log_food` RPC succeeds -/
  logOk : Bool
  /-- `str(date.today())` -/
  today : String
deriving DecidableEq, Repr

/-- The session after a handler ran: the last `set_state` wins; with no write
the stored row is untouched. -/
def applyEffects (sess : Session) (e : Effects) : Session :=
  match e.writes.getLast? with
  | some (st, d) => { step := st, data := d }
  | none => sess

/-- Python `int()` on a number: truncation toward zero. -/
def pyInt (q : Rat) : Int := q.num.tdiv q.den

/-- Round-half-to-even to an integer (Python `round`). -/
def roundHalfEven (q : Rat) : Int :=
  let f := q.floor
  let frac := q - f
  if frac < 1/2 then f
  else if frac > 1/2 then f + 1
  else if f % 2 = 0 then f else f + 1

/-- Decimal rendering of `n/10` tenths, non-negative case. -/
def fmtTenthsNat (n : Nat) : String :=
  toString (n / 10) ++ "." ++ toString (n % 10)

/-- Rendering of Python `round(x, 1)` inside an f-string: one decimal digit
always shown (floats print with at least one fractional digit). -/
def fmtTenths (q : Rat) : String :=
  let n := roundHalfEven (q * 10)
  if n < 0 then "-" ++ fmtTenthsNat (-n).toNat else fmtTenthsNat n.toNat

/-- Up to `k` fractional decimal digits of `r ∈ [0,1)` by truncation. -/
def fracDigits : Nat → Rat → List Char
  | 0, _ => []
  | k+1, r =>
    let r10 := r * 10
    Char.ofNat (48 + r10.floor.toNat) :: fracDigits k (r10 - r10.floor)

/-- Drop trailing `0` characters. -/
def stripTrailingZeros (l : List Char) : List Char :=
  (l.reverse.dropWhile (fun c => c = '0')).reverse

/-- Python `f"...:g"` formatting for the grams value, on the magnitudes the
bot handles (at most six fractional digits, no exponent form): trailing zeros
and a bare decimal point are suppressed. -/
def fmtG (q : Rat) : String :=
  let sign := if q < 0 then "-" else ""
  let a := |q|
  let ip := a.floor.toNat
  let fr := stripTrailingZeros (fracDigits 6 (a - a.floor))
  if fr.isEmpty then sign ++ toString ip
  else sign ++ toString ip ++ "." ++ String.mk fr

/-- `MEAL_TYPES` from `main.py` (a set; listed here in the insertion order of
the literal). -/
def MEAL_TYPES : List String := ["DESAYUNO", "ALMUERZO", "CENA", "SNACK"]

/-- `ACTIVITY_MAP` from `main.py`: key, label, multiplier. -/
def ACTIVITY_MAP : List (String × String × Rat) :=
  [("1.2", "Sedentario", 6/5),
   ("1.375", "Ligera", 11/8),
   ("1.55", "Moderada", 31/20),
   ("1.725", "Alta", 69/40),
   ("1.9", "Muy Alta (atletas)", 19/10)]

/-- `GOALS` from `main.py`. -/
def GOALS : List String := ["DEFICIT", "VOLUMEN"]

/-- Dictionary lookup in `ACTIVITY_MAP`, returning the numeric multiplier. -/
def activityLookup (key : String) : Option Rat :=
  (ACTIVITY_MAP.find? (fun e => e.1 == key)).map (fun e => e.2.2)

/-- `onboarding_intro()` from `main.py`. -/
def onboarding_intro : String :=
  "Perfecto. Vamos a armar tus macros.\nResponde en este orden:\n1) Sexo: H o M\n2) Edad (años)\n3) Talla (cm)\n4) Peso (kg)\n5) Actividad: 1.2 / 1.375 / 1.55 / 1.725 / 1.9\n6) Objetivo: DEFICIT o VOLUMEN\n\nTip: 1.9 es para atletas; la mayoría usa 1.55 o 1.725."

/-- `activity_menu()` from `main.py`. -/
def activity_menu : String :=
  "Elige tu actividad escribiendo el número:\n1.2 Sedentario\n1.375 Ligera\n1.55 Moderada\n1.725 Alta\n1.9 Muy Alta (atletas)"

/-- `help_text()` from `main.py`. -/
def help_text : String :=
  "Comandos:\n/start → iniciar\nRESUMEN → ver objetivo + progreso hoy\nDESAYUNO / ALMUERZO / CENA / SNACK → seleccionar comida\nLuego escribe: <alimento> <gramos>\nEj: pollo cocido 180g\nEj: arroz 200\n"

/-- Effects of a handler that only sends one message. -/
def onlyMsg (m : String) : Effects :=
  { writes := [], msgs := [m], rpcs := [], crashed := false }

/-- Effects of an onboarding step that stores `d` under step `st` and sends
the next prompt. -/
def stepWrite (st : Option String) (d : Acc) (m : String) : Effects :=
  { writes := [(st, d)], msgs := [m], rpcs := [], crashed := false }

/-- `handle_start` from `main.py`: greet and set step `WAIT_CODE`, keeping
the currently stored `data` (`st["data"] or \x7b\x7d`, which is the stored
accumulator itself whether or not it is empty). -/
def handle_start (sess : Session) : Effects :=
  { writes := [(some "WAIT_CODE", sess.data)]
  , msgs := ["¡Hola! 👋 Para comenzar, envíame tu código de acceso (ej: MVP-1001)."]
  , rpcs := []
  , crashed := false }

/-- `handle_code` from `main.py`: forward the text as the
`activate_with_code` RPC; on success advance to `ONB_SEX` with an empty
accumulator, on any exception send the rejection prompt and leave the state
untouched. -/
def handle_code (userId : Nat) (code : String) (o : Oracle) : Effects :=
  if o.activateOk then
    { writes := [(some "ONB_SEX", emptyAcc)]
    , msgs := ["✅ Código válido. " ++ onboarding_intro]
    , rpcs := [RpcCall.activateWithCode userId code]
    , crashed := false }
  else
    { writes := []
    , msgs := ["❌ Código inválido. Intenta de nuevo (ej: MVP-1001)."]
    , rpcs := [RpcCall.activateWithCode userId code]
    , crashed := false }

/-- The final confirmation message of `finalize_onboarding`, interpolating
the four targets read back from `user_profile`. -/
def confirmProfileMsg (p : Profile) : String :=
  "✅ Listo. Tus macros quedaron así:\n- Calorías: " ++ toString (pyInt p.kcal_target) ++
  "\n- Proteína: " ++ toString (pyInt p.protein_g) ++
  " g\n- Carbos: " ++ toString (pyInt p.carbs_g) ++
  " g\n- Grasas: " ++ toString (pyInt p.fats_g) ++
  " g\n\nAhora puedes registrar comidas:\n1) Escribe: ALMUERZO (o DESAYUNO/CENA/SNACK)\n2) Luego: pollo cocido 180g\n\nEscribe RESUMEN cuando quieras ver tu avance."

/-- `finalize_onboarding` from `main.py`.  The payload is built first (a
missing accumulator key raises `KeyError` before any call); the
`complete_onboarding` RPC is not wrapped in try/except, so a transport error
propagates after the call with no message and no state write; likewise an
empty read-back of `user_profile` raises `IndexError`.  Only the fully
successful path sends the confirmation and resets the state to
`(None, data with only current_meal = ALMUERZO)`. -/
def finalize_onboarding (userId : Nat) (data : Acc) (o : Oracle) : Effects :=
  match data.sex, data.age, data.height_cm, data.weight_kg,
        data.activity_factor, data.goal with
  | some sx, some ag, some h, some w, some af, some gl =>
    let call := RpcCall.completeOnboarding userId sx ag h w af gl
    if o.completeOk then
      match o.finalizeRow with
      | some prof =>
        { writes := [(none, { emptyAcc with current_meal := some "ALMUERZO" })]
        , msgs := [confirmProfileMsg prof]
        , rpcs := [call]
        , crashed := false }
      | none => { writes := [], msgs := [], rpcs := [call], crashed := true }
    else { writes := [], msgs := [], rpcs := [call], crashed := true }
  | _, _, _, _, _, _ => { writes := [], msgs := [], rpcs := [], crashed := true }

/-- `handle_onboarding` from `main.py`: the onboarding state machine.  Each
step validates the uppercased, normalised text; on failure it sends the
corrective prompt and returns without writing; on success it stores the value,
advances the step and prompts for the next field.  The final `ONB_GOAL` step
delegates to `finalize_onboarding`. -/
def handle_onboarding (userId : Nat) (sess : Session) (text : String) (o : Oracle) : Effects :=
  let data := sess.data
  let t := pyUpper (normalize_text text)
  if sess.step = some "ONB_SEX" then
    if ¬(t = "H" ∨ t = "M") then onlyMsg "Escribe solo: H o M"
    else stepWrite (some "ONB_AGE") { data with sex := some t } "Edad (años):"
  else if sess.step = some "ONB_AGE" then
    if ¬(pyIsDigit t = true ∧ 10 ≤ digitsToNat t.data ∧ digitsToNat t.data ≤ 90) then
      onlyMsg "Edad inválida. Ej: 34"
    else stepWrite (some "ONB_HEIGHT") { data with age := some (digitsToNat t.data) }
      "Talla en cm (ej: 163):"
  else if sess.step = some "ONB_HEIGHT" then
    match pyFloat (commaToDot t) with
    | some h =>
      if ¬(120 ≤ h ∧ h ≤ 230) then onlyMsg "Talla inválida. Ej: 163"
      else stepWrite (some "ONB_WEIGHT") { data with height_cm := some h }
        "Peso en kg (ej: 67):"
    | none => onlyMsg "Talla inválida. Ej: 163"
  else if sess.step = some "ONB_WEIGHT" then
    match pyFloat (commaToDot t) with
    | some w =>
      if ¬(35 ≤ w ∧ w ≤ 250) then onlyMsg "Peso inválido. Ej: 67"
      else stepWrite (some "ONB_ACTIVITY") { data with weight_kg := some w } activity_menu
    | none => onlyMsg "Peso inválido. Ej: 67"
  else if sess.step = some "ONB_ACTIVITY" then
    match activityLookup (stripSpaces t) with
    | some f =>
      stepWrite (some "ONB_GOAL") { data with activity_factor := some f }
        "Objetivo: DEFICIT o VOLUMEN"
    | none => onlyMsg ("Actividad inválida.\n" ++ activity_menu)
  else if sess.step = some "ONB_GOAL" then
    if ¬(t ∈ GOALS) then onlyMsg "Objetivo inválido. Escribe: DEFICIT o VOLUMEN"
    else finalize_onboarding userId { data with goal := some t } o
  else { writes := [], msgs := [], rpcs := [], crashed := false }

/-- `handle_summary` from `main.py`. -/
def handle_summary (o : Oracle) : Effects :=
  match o.profileRow with
  | none => onlyMsg "Aún no tienes macros. Escribe /start para iniciar."
  | some prof =>
    let header :=
      "📊 RESUMEN " ++ o.today ++ "\n\n🎯 Objetivo:\n- Kcal: " ++
      toString (pyInt prof.kcal_target) ++ "\n- P: " ++ toString (pyInt prof.protein_g) ++
      " g | C: " ++ toString (pyInt prof.carbs_g) ++ " g | F: " ++
      toString (pyInt prof.fats_g) ++ " g\n\n"
    match o.dailyRow with
    | some (k, p, c, f) =>
      onlyMsg (header ++ "✅ Consumido:\n- Kcal: " ++ toString (pyInt k) ++
        "\n- P: " ++ fmtTenths p ++ " g | C: " ++ fmtTenths c ++ " g | F: " ++
        fmtTenths f ++ " g\n")
    | none => onlyMsg (header ++ "✅ Consumido: 0 (aún no registraste comidas hoy)\n")

/-- `handle_meal_select` from `main.py`: store the chosen meal (step stays
NULL) and acknowledge. -/
def handle_meal_select (sess : Session) (meal : String) : Effects :=
  { writes := [(none, { sess.data with current_meal := some meal })]
  , msgs := ["🍽️ Ok. Comida seleccionada: " ++ meal ++
      "\nAhora escribe: <alimento> <gramos>\nEj: pollo cocido 180g"]
  , rpcs := []
  , crashed := false }

/-- `handle_log_food` from `main.py`: `data.get("current_meal") or
"ALMUERZO"` (Python `or` also replaces an empty string), parse the line, and
issue the `log_food` RPC; its try/except turns a failure into a not-found
message with no state change. -/
def handle_log_food (userId : Nat) (sess : Session) (text : String) (o : Oracle) : Effects :=
  let current_meal :=
    match sess.data.current_meal with
    | some m => if m = "" then "ALMUERZO" else m
    | none => "ALMUERZO"
  match parse_food_grams text with
  | none =>
    onlyMsg "No entendí. Ejemplo: pollo cocido 180g\nO escribe RESUMEN / ALMUERZO / CENA / DESAYUNO / SNACK"
  | some (foodName, grams) =>
    let call := RpcCall.logFood userId current_meal foodName grams o.today
    if o.logOk then
      { writes := []
      , msgs := ["✅ Registrado: " ++ foodName ++ " (" ++ fmtG grams ++ "g) en " ++
          current_meal ++ ".\nEscribe RESUMEN para ver tu avance."]
      , rpcs := [call]
      , crashed := false }
    else
      { writes := []
      , msgs := ["❌ No encontré “" ++ foodName ++ "” en tu catálogo.\nPrueba con el nombre exacto (ej: pollo cocido, arroz, pepino).\nMás adelante habilitamos AGREGAR para cargar productos nuevos."]
      , rpcs := [call]
      , crashed := false }

/-- `step and step.startswith("ONB_")` from the webhook routing. -/
def stepStartsONB (st : Option String) : Bool :=
  match st with
  | some s => strStarts s "ONB_"
  | none => false

/-- The message-dispatch portion of the `webhook` route in `main.py`, after
identity resolution: normalise the text, match the global commands, then
route on the stored step, the profile check, meal selection, and finally food
logging. -/
def webhook (userId : Nat) (sess : Session) (rawText : String) (o : Oracle) : Effects :=
  let text := normalize_text rawText
  if strStarts text "/start" then handle_start sess
  else if pyUpper text = "AYUDA" then onlyMsg help_text
  else if pyUpper text = "RESUMEN" then handle_summary o
  else if sess.step = some "WAIT_CODE" then handle_code userId text o
  else if stepStartsONB sess.step then handle_onboarding userId sess text o
  else if o.profileRow.isNone then onlyMsg "Primero configuramos tus macros. Escribe /start."
  else if pyUpper text ∈ MEAL_TYPES then handle_meal_select sess (pyUpper text)
  else handle_log_food userId sess text o

/-- The six onboarding steps, each of which has a validator. -/
def onbSteps : List String :=
  ["ONB_SEX", "ONB_AGE", "ONB_HEIGHT", "ONB_WEIGHT", "ONB_ACTIVITY", "ONB_GOAL"]

/-- The validator of each onboarding step, extracted verbatim from the
branch conditions of `handle_onboarding`: `true` iff the step accepts the
raw input `x`. -/
def stepValidates (s x : String) : Bool :=
  let t := pyUpper (normalize_text x)
  if s = "ONB_SEX" then decide (t = "H" ∨ t = "M")
  else if s = "ONB_AGE" then
    decide (pyIsDigit t = true ∧ 10 ≤ digitsToNat t.data ∧ digitsToNat t.data ≤ 90)
  else if s = "ONB_HEIGHT" then
    match pyFloat (commaToDot t) with
    | some h => decide (120 ≤ h ∧ h ≤ 230)
    | none => false
  else if s = "ONB_WEIGHT" then
    match pyFloat (commaToDot t) with
    | some w => decide (35 ≤ w ∧ w ≤ 250)
    | none => false
  else if s = "ONB_ACTIVITY" then (activityLookup (stripSpaces t)).isSome
  else if s = "ONB_GOAL" then decide (t ∈ GOALS)
  else false

/-- The corrective prompt each onboarding step sends on invalid input. -/
def correctivePrompt (s : String) : String :=
  if s = "ONB_SEX" then "Escribe solo: H o M"
  else if s = "ONB_AGE" then "Edad inválida. Ej: 34"
  else if s = "ONB_HEIGHT" then "Talla inválida. Ej: 163"
  else if s = "ONB_WEIGHT" then "Peso inválido. Ej: 67"
  else if s = "ONB_ACTIVITY" then "Actividad inválida.\n" ++ activity_menu
  else "Objetivo inválido. Escribe: DEFICIT o VOLUMEN"

/-- C1: on every onboarding step, input the step's validator rejects produces
exactly the corrective prompt, no state write, no RPC and no crash, and the
persisted session (step and accumulator) is unchanged. -/
theorem invalid_input_never_advances (userId : Nat) (sess : Session) (x : String)
    (o : Oracle) (s : String) (hs : s ∈ onbSteps) (hstep : sess.step = some s)
    (hrej : stepValidates s x = false) :
    handle_onboarding userId sess x o =
      { writes := [], msgs := [correctivePrompt s], rpcs := [], crashed := false } ∧
    applyEffects sess (handle_onboarding userId sess x o) = sess := by
  have key : handle_onboarding userId sess x o =
      { writes := [], msgs := [correctivePrompt s], rpcs := [], crashed := false } := by
    simp only [onbSteps, List.mem_cons, List.not_mem_nil, or_false] at hs
    rcases hs with rfl | rfl | rfl | rfl | rfl | rfl
    · simp [stepValidates] at hrej
      simp [handle_onboarding, hstep, hrej, correctivePrompt, onlyMsg]
    · simp [stepValidates] at hrej
      simp [handle_onboarding, hstep, hrej, correctivePrompt, onlyMsg]
      intro h1 h2 h3
      exact absurd (hrej h1 h2) (by omega)
    · rcases hpf : pyFloat (commaToDot (pyUpper (normalize_text x))) with _ | h
      · simp [handle_onboarding, hstep, hpf, correctivePrompt, onlyMsg]
      · simp [stepValidates, hpf] at hrej
        simp [handle_onboarding, hstep, hpf, hrej, correctivePrompt, onlyMsg]
        intro h1 h2
        exact absurd (hrej h1) (not_lt.mpr h2)
    · rcases hpf : pyFloat (commaToDot (pyUpper (normalize_text x))) with _ | w
      · simp [handle_onboarding, hstep, hpf, correctivePrompt, onlyMsg]
      · simp [stepValidates, hpf] at hrej
        simp [handle_onboarding, hstep, hpf, hrej, correctivePrompt, onlyMsg]
        intro h1 h2
        exact absurd (hrej h1) (not_lt.mpr h2)
    · rcases hact : activityLookup (stripSpaces (pyUpper (normalize_text x))) with _ | f
      · simp [handle_onboarding, hstep, hact, correctivePrompt, onlyMsg]
      · simp [stepValidates, hact] at hrej
    · simp [stepValidates, GOALS] at hrej
      simp [handle_onboarding, hstep, hrej, correctivePrompt, onlyMsg, GOALS]
  refine ⟨key, ?_⟩
  rw [key]
  simp [applyEffects]

/-- Sample mid-onboarding accumulator used by concrete witnesses. -/
def accSample : Acc := { sex := some "H" }

/-- Sample delegate oracle used by concrete witnesses. -/
def oracleSample : Oracle :=
  { activateOk := true
  , completeOk := true
  , finalizeRow := some ⟨1800, 140, 180, 60⟩
  , profileRow := some ⟨1800, 140, 180, 60⟩
  , dailyRow := none
  , logOk := true
  , today := "2026-10-12" }

/-- Witness for C1: the age step rejects "9" and leaves the session as it
was. -/
theorem invalid_input_never_advances_witness :
    handle_onboarding 7 ⟨some "ONB_AGE", accSample⟩ "9" oracleSample =
      { writes := [], msgs := ["Edad inválida. Ej: 34"], rpcs := [], crashed := false } ∧
    applyEffects ⟨some "ONB_AGE", accSample⟩
        (handle_onboarding 7 ⟨some "ONB_AGE", accSample⟩ "9" oracleSample) =
      ⟨some "ONB_AGE", accSample⟩ :=
  invalid_input_never_advances 7 ⟨some "ONB_AGE", accSample⟩ "9" oracleSample
    "ONB_AGE" (by decide) rfl (by decide)

/-- The accumulator stored by a successful `finalize_onboarding`: only the
default meal selection remains. -/
def readyAcc : Acc := { emptyAcc with current_meal := some "ALMUERZO" }

/-- C2: at the final onboarding step with a valid goal and a successful
delegate, exactly one `complete_onboarding` RPC carrying all six collected
fields is issued, the stored accumulator is cleared of every onboarding field
(only the default meal remains), the step becomes the NULL/READY steady
state, and the one message emitted is the confirmation interpolating the four
targets the delegate returned. -/
theorem finalize_success_clears_and_confirms (userId : Nat) (sess : Session)
    (x : String) (o : Oracle) (sx : String) (ag : Nat) (h w af : Rat) (prof : Profile)
    (hstep : sess.step = some "ONB_GOAL")
    (hsx : sess.data.sex = some sx) (hag : sess.data.age = some ag)
    (hh : sess.data.height_cm = some h) (hw : sess.data.weight_kg = some w)
    (haf : sess.data.activity_factor = some af)
    (hvalid : pyUpper (normalize_text x) ∈ GOALS)
    (hok : o.completeOk = true) (hrow : o.finalizeRow = some prof) :
    handle_onboarding userId sess x o =
      { writes := [(none, readyAcc)]
      , msgs := [confirmProfileMsg prof]
      , rpcs := [RpcCall.completeOnboarding userId sx ag h w af (pyUpper (normalize_text x))]
      , crashed := false } ∧
    applyEffects sess (handle_onboarding userId sess x o) = ⟨none, readyAcc⟩ := by
  have key : handle_onboarding userId sess x o =
      { writes := [(none, readyAcc)]
      , msgs := [confirmProfileMsg prof]
      , rpcs := [RpcCall.completeOnboarding userId sx ag h w af (pyUpper (normalize_text x))]
      , crashed := false } := by
    simp [handle_onboarding, hstep, hvalid, finalize_onboarding, hsx, hag, hh, hw, haf,
      hok, hrow, readyAcc]
  refine ⟨key, ?_⟩
  rw [key]
  simp [applyEffects]

/-- A fully collected accumulator used by concrete witnesses. -/
def accFull : Acc :=
  { sex := some "H", age := some 30, height_cm := some (mkRat 170 1)
  , weight_kg := some (mkRat 70 1), activity_factor := some (mkRat 31 20) }

/-- Witness for C2: submitting "deficit" at the goal step with a successful
delegate stores `(None, readyAcc)` and issues the one six-field RPC. -/
theorem finalize_success_clears_and_confirms_witness :
    handle_onboarding 7 ⟨some "ONB_GOAL", accFull⟩ "deficit" oracleSample =
      { writes := [(none, readyAcc)]
      , msgs := [confirmProfileMsg ⟨1800, 140, 180, 60⟩]
      , rpcs := [RpcCall.completeOnboarding 7 "H" 30 (mkRat 170 1) (mkRat 70 1)
          (mkRat 31 20) (pyUpper (normalize_text "deficit"))]
      , crashed := false } ∧
    applyEffects ⟨some "ONB_GOAL", accFull⟩
        (handle_onboarding 7 ⟨some "ONB_GOAL", accFull⟩ "deficit" oracleSample) =
      ⟨none, readyAcc⟩ :=
  finalize_success_clears_and_confirms 7 ⟨some "ONB_GOAL", accFull⟩ "deficit"
    oracleSample "H" 30 (mkRat 170 1) (mkRat 70 1) (mkRat 31 20) ⟨1800, 140, 180, 60⟩
    rfl rfl rfl rfl rfl rfl (by decide) rfl rfl

/-- Counterexample to C3 as stated: with a transport failure of
`complete_onboarding` at the goal step, the code emits NO message at all (the
exception propagates out of the handler), so the user is not re-prompted for
the final field.  State preservation does hold: no write is issued. -/
theorem finalize_transport_error_no_reprompt :
    handle_onboarding 7 ⟨some "ONB_GOAL", accFull⟩ "DEFICIT"
        { oracleSample with completeOk := false } =
      { writes := []
      , msgs := []
      , rpcs := [RpcCall.completeOnboarding 7 "H" 30 (mkRat 170 1) (mkRat 70 1)
          (mkRat 31 20) "DEFICIT"]
      , crashed := true } := by
  decide

/-- C3 amended: a transport failure of the finalize delegate leaves the
persisted session at the same step `ONB_GOAL` with the same accumulator (no
collected field is lost: no `set_state` happens), and issues the one RPC;
but no re-prompt is emitted — the exception propagates with no outbound
message. -/
theorem finalize_transport_error_preserves_state (userId : Nat) (sess : Session)
    (x : String) (o : Oracle) (sx : String) (ag : Nat) (h w af : Rat)
    (hstep : sess.step = some "ONB_GOAL")
    (hsx : sess.data.sex = some sx) (hag : sess.data.age = some ag)
    (hh : sess.data.height_cm = some h) (hw : sess.data.weight_kg = some w)
    (haf : sess.data.activity_factor = some af)
    (hvalid : pyUpper (normalize_text x) ∈ GOALS)
    (hfail : o.completeOk = false) :
    handle_onboarding userId sess x o =
      { writes := []
      , msgs := []
      , rpcs := [RpcCall.completeOnboarding userId sx ag h w af (pyUpper (normalize_text x))]
      , crashed := true } ∧
    applyEffects sess (handle_onboarding userId sess x o) = sess := by
  have key : handle_onboarding userId sess x o =
      { writes := []
      , msgs := []
      , rpcs := [RpcCall.completeOnboarding userId sx ag h w af (pyUpper (normalize_text x))]
      , crashed := true } := by
    simp [handle_onboarding, hstep, hvalid, finalize_onboarding, hsx, hag, hh, hw, haf, hfail]
  refine ⟨key, ?_⟩
  rw [key]
  simp [applyEffects]

/-- Witness for the amended C3, at a concrete goal submission with a failing
delegate. -/
theorem finalize_transport_error_preserves_state_witness :
    handle_onboarding 7 ⟨some "ONB_GOAL", accFull⟩ "volumen"
        { oracleSample with completeOk := false } =
      { writes := []
      , msgs := []
      , rpcs := [RpcCall.completeOnboarding 7 "H" 30 (mkRat 170 1) (mkRat 70 1)
          (mkRat 31 20) (pyUpper (normalize_text "volumen"))]
      , crashed := true } ∧
    applyEffects ⟨some "ONB_GOAL", accFull⟩
        (handle_onboarding 7 ⟨some "ONB_GOAL", accFull⟩ "volumen"
          { oracleSample with completeOk := false }) =
      ⟨some "ONB_GOAL", accFull⟩ :=
  finalize_transport_error_preserves_state 7 ⟨some "ONB_GOAL", accFull⟩ "volumen"
    { oracleSample with completeOk := false } "H" 30 (mkRat 170 1) (mkRat 70 1)
    (mkRat 31 20) rfl rfl rfl rfl rfl rfl (by decide) rfl

/-- Counterexample to C4 as stated: a zero-quantity line does NOT yield
NONE — `parse_food_grams` performs no positivity check on the quantity, so
"arroz 0" parses to `("arroz", 0)`. -/
theorem parse_zero_quantity_not_rejected :
    parse_food_grams "arroz 0" = some ("arroz", mkRat 0 1) := by
  decide

/-- C4 amended: the parser reproduces the spec's positive examples and the
no-numeric-tail rejections, and a negatively signed quantity can never match
the digit-only pattern ("algo -5g" is NONE); but the quantity is not compared
against zero, so a zero-quantity line parses successfully instead of yielding
NONE. -/
theorem parse_item_line_examples :
    parse_food_grams "pollo cocido 180g" = some ("pollo cocido", mkRat 180 1) ∧
    parse_food_grams "arroz 200" = some ("arroz", mkRat 200 1) ∧
    parse_food_grams "pepino 100 g" = some ("pepino", mkRat 100 1) ∧
    parse_food_grams "   " = none ∧
    parse_food_grams "solotexto" = none ∧
    parse_food_grams "algo -5g" = none ∧
    parse_food_grams "algo 0.0" = some ("algo", mkRat 0 1) := by
  decide

/-- Counterexample setup for C5: a mid-onboarding session whose accumulator
already holds two fields. -/
def sessMid : Session := ⟨some "ONB_HEIGHT", { sex := some "M", age := some 40 }⟩

/-- Counterexample to C5 as stated: issuing the reset command ("/start")
mid-onboarding sets the step to `WAIT_CODE` but does NOT clear the
accumulator — the collected fields survive, so the stored state is not
`(AWAIT_ACCESS_CODE, \x7b\x7d)`. -/
theorem reset_does_not_clear_accumulator :
    applyEffects sessMid (webhook 7 sessMid "/start" oracleSample) =
      ⟨some "WAIT_CODE", { sex := some "M", age := some 40 }⟩ ∧
    ({ sex := some "M", age := some 40 } : Acc) ≠ emptyAcc := by
  decide

/-- C5 amended: from any step and any accumulator, a message starting with
"/start" routes to `handle_start`, which sets the persisted step to
`WAIT_CODE` but keeps the stored accumulator as it is; the accumulator is
emptied only later, by a successful access-code activation. -/
theorem reset_sets_wait_code_keeps_data (userId : Nat) (sess : Session)
    (x : String) (o : Oracle)
    (hstart : strStarts (normalize_text x) "/start" = true) :
    webhook userId sess x o = handle_start sess ∧
    applyEffects sess (webhook userId sess x o) = ⟨some "WAIT_CODE", sess.data⟩ := by
  have key : webhook userId sess x o = handle_start sess := by
    simp [webhook, hstart]
  refine ⟨key, ?_⟩
  rw [key]
  simp [applyEffects, handle_start]

/-- Witness for the amended C5 at the concrete mid-onboarding session. -/
theorem reset_sets_wait_code_keeps_data_witness :
    webhook 7 sessMid "/start" oracleSample = handle_start sessMid ∧
    applyEffects sessMid (webhook 7 sessMid "/start" oracleSample) =
      ⟨some "WAIT_CODE", sessMid.data⟩ :=
  reset_sets_wait_code_keeps_data 7 sessMid "/start" oracleSample (by decide)

/-- C6: the age step accepts exactly the all-digit inputs whose value lies in
the inclusive range [10, 90]: an accepted input stores the value and advances
to the height step, and any other input leaves everything unchanged behind
the corrective prompt. -/
theorem age_validator_inclusive_10_90 (userId : Nat) (sess : Session)
    (x : String) (o : Oracle) (hstep : sess.step = some "ONB_AGE") :
    (pyIsDigit (pyUpper (normalize_text x)) = true ∧
        10 ≤ digitsToNat (pyUpper (normalize_text x)).data ∧
        digitsToNat (pyUpper (normalize_text x)).data ≤ 90 →
      handle_onboarding userId sess x o =
        { writes := [(some "ONB_HEIGHT",
            { sess.data with age := some (digitsToNat (pyUpper (normalize_text x)).data) })]
        , msgs := ["Talla en cm (ej: 163):"], rpcs := [], crashed := false }) ∧
    (¬(pyIsDigit (pyUpper (normalize_text x)) = true ∧
        10 ≤ digitsToNat (pyUpper (normalize_text x)).data ∧
        digitsToNat (pyUpper (normalize_text x)).data ≤ 90) →
      handle_onboarding userId sess x o =
        { writes := [], msgs := ["Edad inválida. Ej: 34"], rpcs := [], crashed := false } ∧
      applyEffects sess (handle_onboarding userId sess x o) = sess) := by
  constructor
  · intro hacc
    simp [handle_onboarding, hstep, hacc, stepWrite]
  · intro hrej
    have key : handle_onboarding userId sess x o =
        { writes := [], msgs := ["Edad inválida. Ej: 34"], rpcs := [], crashed := false } := by
      simp [handle_onboarding, hstep, hrej, onlyMsg]
    refine ⟨key, ?_⟩
    rw [key]
    simp [applyEffects]

/-- Witness for C6: the boundary input "10" is accepted and stored. -/
theorem age_validator_inclusive_10_90_witness :
    handle_onboarding 7 ⟨some "ONB_AGE", accSample⟩ "10" oracleSample =
      { writes := [(some "ONB_HEIGHT", { accSample with age := some 10 })]
      , msgs := ["Talla en cm (ej: 163):"], rpcs := [], crashed := false } :=
  (age_validator_inclusive_10_90 7 ⟨some "ONB_AGE", accSample⟩ "10" oracleSample rfl).1
    (by decide)

/-- Counterexample to C7 as stated: "30" parses to the decimal 30, which lies
in the spec's claimed inclusive range [30, 250], yet the weight step rejects
it (the code's lower bound is 35). -/
theorem weight_30_rejected :
    pyFloat (commaToDot (pyUpper (normalize_text "30"))) = some (mkRat 30 1) ∧
    30 ≤ mkRat 30 1 ∧ mkRat 30 1 ≤ 250 ∧
    handle_onboarding 7 ⟨some "ONB_WEIGHT", accSample⟩ "30" oracleSample =
      { writes := [], msgs := ["Peso inválido. Ej: 67"], rpcs := [], crashed := false } := by
  decide

/-- C7 amended: for every input that parses as a decimal `w`, the weight step
advances with `w` stored exactly when `35 ≤ w ≤ 250` (inclusive), and
otherwise re-prompts leaving the session unchanged — the code's lower bound
is 35 kg, not the spec's 30 kg. -/
theorem weight_validator_inclusive_35_250 (userId : Nat) (sess : Session)
    (x : String) (o : Oracle) (w : Rat) (hstep : sess.step = some "ONB_WEIGHT")
    (hpf : pyFloat (commaToDot (pyUpper (normalize_text x))) = some w) :
    (35 ≤ w ∧ w ≤ 250 →
      handle_onboarding userId sess x o =
        { writes := [(some "ONB_ACTIVITY", { sess.data with weight_kg := some w })]
        , msgs := [activity_menu], rpcs := [], crashed := false }) ∧
    (¬(35 ≤ w ∧ w ≤ 250) →
      handle_onboarding userId sess x o =
        { writes := [], msgs := ["Peso inválido. Ej: 67"], rpcs := [], crashed := false } ∧
      applyEffects sess (handle_onboarding userId sess x o) = sess) := by
  constructor
  · intro hacc
    simp [handle_onboarding, hstep, hpf, hacc, stepWrite]
  · intro hrej
    have key : handle_onboarding userId sess x o =
        { writes := [], msgs := ["Peso inválido. Ej: 67"], rpcs := [], crashed := false } := by
      simp [handle_onboarding, hstep, hpf, hrej, onlyMsg]
    refine ⟨key, ?_⟩
    rw [key]
    simp [applyEffects]

/-- Witness for the amended C7: "67" is accepted and stored. -/
theorem weight_validator_inclusive_35_250_witness :
    handle_onboarding 7 ⟨some "ONB_WEIGHT", accSample⟩ "67" oracleSample =
      { writes := [(some "ONB_ACTIVITY", { accSample with weight_kg := some (mkRat 67 1) })]
      , msgs := [activity_menu], rpcs := [], crashed := false } :=
  (weight_validator_inclusive_35_250 7 ⟨some "ONB_WEIGHT", accSample⟩ "67" oracleSample
    (mkRat 67 1) rfl (by decide)).1 (by decide)

/-- Whatever `finalize_onboarding` does — succeed, crash on a missing key, or
crash on a failed delegate — it either performs a state write or propagates
an exception; it can never return the quiet single-message shape of a
validator rejection. -/
theorem finalize_writes_or_crashed (userId : Nat) (d : Acc) (o : Oracle) :
    (finalize_onboarding userId d o).writes ≠ [] ∨
    (finalize_onboarding userId d o).crashed = true := by
  rcases hsx : d.sex with _ | sx <;>
  rcases hag : d.age with _ | ag <;>
  rcases hh2 : d.height_cm with _ | h <;>
  rcases hw2 : d.weight_kg with _ | w <;>
  rcases haf2 : d.activity_factor with _ | af <;>
  rcases hgl : d.goal with _ | gl <;>
  rcases hok : o.completeOk <;>
  rcases hrow : o.finalizeRow with _ | prof <;>
  simp [finalize_onboarding, hsx, hag, hh2, hw2, haf2, hgl, hok, hrow]

/-- Counterexample to C8 as stated: the goal vocabulary of the code is
`GOALS = \x7bDEFICIT, VOLUMEN\x7d`, not the spec's
\x7bdeficit, maintenance, surplus\x7d: "maintenance" and "surplus" are
rejected with the step unchanged, while "volumen" is accepted and proceeds
to finalization. -/
theorem goal_vocabulary_differs :
    handle_onboarding 7 ⟨some "ONB_GOAL", accFull⟩ "maintenance" oracleSample =
      { writes := [], msgs := ["Objetivo inválido. Escribe: DEFICIT o VOLUMEN"]
      , rpcs := [], crashed := false } ∧
    handle_onboarding 7 ⟨some "ONB_GOAL", accFull⟩ "surplus" oracleSample =
      { writes := [], msgs := ["Objetivo inválido. Escribe: DEFICIT o VOLUMEN"]
      , rpcs := [], crashed := false } ∧
    (handle_onboarding 7 ⟨some "ONB_GOAL", accFull⟩ "volumen" oracleSample).rpcs =
      [RpcCall.completeOnboarding 7 "H" 30 (mkRat 170 1) (mkRat 70 1) (mkRat 31 20)
        "VOLUMEN"] := by
  decide

/-- C8 amended: the goal step rejects an input with the corrective prompt
and an unchanged session exactly when its uppercased normalised form lies
outside `GOALS = \x7bDEFICIT, VOLUMEN\x7d`; members of that two-element set
(case-insensitively) proceed to profile finalization instead. -/
theorem goal_validator_deficit_volumen (userId : Nat) (sess : Session)
    (x : String) (o : Oracle) (hstep : sess.step = some "ONB_GOAL") :
    handle_onboarding userId sess x o =
        { writes := [], msgs := ["Objetivo inválido. Escribe: DEFICIT o VOLUMEN"]
        , rpcs := [], crashed := false } ↔
      pyUpper (normalize_text x) ∉ GOALS := by
  constructor
  · intro hEq hmem
    have hfin : handle_onboarding userId sess x o =
        finalize_onboarding userId
          { sess.data with goal := some (pyUpper (normalize_text x)) } o := by
      simp [handle_onboarding, hstep, hmem]
    rcases finalize_writes_or_crashed userId
        { sess.data with goal := some (pyUpper (normalize_text x)) } o with hW | hC
    · rw [← hfin, hEq] at hW
      exact hW rfl
    · rw [← hfin, hEq] at hC
      simp at hC
  · intro hnm
    simp [handle_onboarding, hstep, hnm, onlyMsg]

/-- Witness for the amended C8: "mantener" is outside the goal set and is
rejected. -/
theorem goal_validator_deficit_volumen_witness :
    handle_onboarding 7 ⟨some "ONB_GOAL", accFull⟩ "mantener" oracleSample =
      { writes := [], msgs := ["Objetivo inválido. Escribe: DEFICIT o VOLUMEN"]
      , rpcs := [], crashed := false } :=
  (goal_validator_deficit_volumen 7 ⟨some "ONB_GOAL", accFull⟩ "mantener"
    oracleSample rfl).mpr (by decide)

/-- C9: in the `WAIT_CODE` step (and outside the global commands), the
webhook forwards the normalised text unmodified as the `activate_with_code`
RPC; delegate success stores `(ONB_SEX, \x7b\x7d)` behind the acceptance
message, and delegate failure emits exactly one rejection prompt with no
state write, leaving step and accumulator unchanged. -/
theorem wait_code_forwards_text (userId : Nat) (sess : Session) (x : String)
    (o : Oracle) (hstep : sess.step = some "WAIT_CODE")
    (hns : strStarts (normalize_text x) "/start" = false)
    (hna : pyUpper (normalize_text x) ≠ "AYUDA")
    (hnr : pyUpper (normalize_text x) ≠ "RESUMEN") :
    webhook userId sess x o = handle_code userId (normalize_text x) o ∧
    (o.activateOk = true →
      webhook userId sess x o =
        { writes := [(some "ONB_SEX", emptyAcc)]
        , msgs := ["✅ Código válido. " ++ onboarding_intro]
        , rpcs := [RpcCall.activateWithCode userId (normalize_text x)]
        , crashed := false }) ∧
    (o.activateOk = false →
      webhook userId sess x o =
        { writes := []
        , msgs := ["❌ Código inválido. Intenta de nuevo (ej: MVP-1001)."]
        , rpcs := [RpcCall.activateWithCode userId (normalize_text x)]
        , crashed := false } ∧
      applyEffects sess (webhook userId sess x o) = sess) := by
  have hroute : webhook userId sess x o = handle_code userId (normalize_text x) o := by
    simp [webhook, hstep, hns, hna, hnr]
  refine ⟨hroute, ?_, ?_⟩
  · intro hok
    rw [hroute]
    simp [handle_code, hok]
  · intro hfail
    have key : webhook userId sess x o =
        { writes := []
        , msgs := ["❌ Código inválido. Intenta de nuevo (ej: MVP-1001)."]
        , rpcs := [RpcCall.activateWithCode userId (normalize_text x)]
        , crashed := false } := by
      rw [hroute]
      simp [handle_code, hfail]
    refine ⟨key, ?_⟩
    rw [key]
    simp [applyEffects]

/-- Witness for C9: a concrete access code with a succeeding delegate. -/
theorem wait_code_forwards_text_witness :
    webhook 7 ⟨some "WAIT_CODE", accSample⟩ "MVP-1001" oracleSample =
      handle_code 7 (normalize_text "MVP-1001") oracleSample ∧
    (oracleSample.activateOk = true →
      webhook 7 ⟨some "WAIT_CODE", accSample⟩ "MVP-1001" oracleSample =
        { writes := [(some "ONB_SEX", emptyAcc)]
        , msgs := ["✅ Código válido. " ++ onboarding_intro]
        , rpcs := [RpcCall.activateWithCode 7 (normalize_text "MVP-1001")]
        , crashed := false }) ∧
    (oracleSample.activateOk = false →
      webhook 7 ⟨some "WAIT_CODE", accSample⟩ "MVP-1001" oracleSample =
        { writes := []
        , msgs := ["❌ Código inválido. Intenta de nuevo (ej: MVP-1001)."]
        , rpcs := [RpcCall.activateWithCode 7 (normalize_text "MVP-1001")]
        , crashed := false } ∧
      applyEffects ⟨some "WAIT_CODE", accSample⟩
          (webhook 7 ⟨some "WAIT_CODE", accSample⟩ "MVP-1001" oracleSample) =
        ⟨some "WAIT_CODE", accSample⟩) :=
  wait_code_forwards_text 7 ⟨some "WAIT_CODE", accSample⟩ "MVP-1001" oracleSample
    rfl (by decide) (by decide) (by decide)

/-- C10: with no stored `current_meal`, a parseable food line is logged under
the default category `ALMUERZO`; and every successful finalization stores the
post-onboarding state whose only field is `current_meal = ALMUERZO`. -/
theorem default_meal_is_almuerzo (userId : Nat) (sess : Session) (x : String)
    (o : Oracle) (nm : String) (g : Rat)
    (hmeal : sess.data.current_meal = none)
    (hp : parse_food_grams x = some (nm, g)) :
    (handle_log_food userId sess x o).rpcs =
      [RpcCall.logFood userId "ALMUERZO" nm g o.today] ∧
    ∀ (d : Acc) (o2 : Oracle) (prof : Profile),
      d.sex ≠ none → d.age ≠ none → d.height_cm ≠ none → d.weight_kg ≠ none →
      d.activity_factor ≠ none → d.goal ≠ none →
      o2.completeOk = true → o2.finalizeRow = some prof →
      (finalize_onboarding userId d o2).writes = [(none, readyAcc)] := by
  constructor
  · rcases hlog : o.logOk <;> simp [handle_log_food, hmeal, hp, hlog]
  · intro d o2 prof h1 h2 h3 h4 h5 h6 hok hrow
    rcases Option.ne_none_iff_exists'.mp h1 with ⟨sx, hsx⟩
    rcases Option.ne_none_iff_exists'.mp h2 with ⟨ag, hag⟩
    rcases Option.ne_none_iff_exists'.mp h3 with ⟨hcm, hh2⟩
    rcases Option.ne_none_iff_exists'.mp h4 with ⟨wkg, hw2⟩
    rcases Option.ne_none_iff_exists'.mp h5 with ⟨af, haf2⟩
    rcases Option.ne_none_iff_exists'.mp h6 with ⟨gl, hgl⟩
    simp [finalize_onboarding, hsx, hag, hh2, hw2, haf2, hgl, hok, hrow, readyAcc, emptyAcc]

/-- Fully collected accumulator including the goal, for the C10 witness. -/
def accDone : Acc := { accFull with goal := some "DEFICIT" }

/-- Witness for C10: both conclusions at concrete inputs. -/
theorem default_meal_is_almuerzo_witness :
    (handle_log_food 7 ⟨none, emptyAcc⟩ "arroz 200" oracleSample).rpcs =
      [RpcCall.logFood 7 "ALMUERZO" "arroz" (mkRat 200 1) oracleSample.today] ∧
    (finalize_onboarding 7 accDone oracleSample).writes = [(none, readyAcc)] := by
  have h := default_meal_is_almuerzo 7 ⟨none, emptyAcc⟩ "arroz 200" oracleSample
    "arroz" (mkRat 200 1) rfl (by decide)
  exact ⟨h.1, h.2 accDone oracleSample ⟨1800, 140, 180, 60⟩ (by decide) (by decide)
    (by decide) (by decide) (by decide) (by decide) rfl rfl⟩

end MacrosBot
